import Mathlib

/-!
Shallow embedding of `src/my-app/app/api/check-payment/route.ts`, the single
`GET` route handler of this repository.

Modelling conventions:
* JavaScript numbers are modelled by exact rationals (`ℚ`); a number that may
  be `NaN` is modelled by `Option ℚ` (`none` = `NaN`).
* Query parameters (`searchParams.get`) are `Option String` (`none` = `null`).
* The outbound HTTP world is an oracle in an `Env` record: one
  `EndpointOutcome` per candidate transfer-history endpoint (the source has
  exactly two), and a function from URL to `BalanceOutcome` for the secondary
  token-balance call.  `Date.now()` is `Env.now`, in milliseconds.
* Upstream transactions (`tx` of `data.result`) are records whose numeric
  fields (`value`, `tokenDecimal`, `timeStamp`) hold the values that
  `Number.parseInt` yields on the well-formed decimal strings the explorer
  returns; the raw string of the token-balance body is kept as a string
  because the source applies the `|| "0"` fallback before parsing it.
* The TypeScript field `from` is a Lean keyword and is rendered `fromAddr`
  (and `to` as `toAddr` for symmetry).
* Wall-clock echo fields of `debugInfo` (`timestamp`, `requestTime`) and the
  fixed `environment` / `network` / `serverlessOptimized` literals are not
  claim-relevant and are omitted from the `DebugInfo` model; every field a
  claim touches is modelled.
-/

set_option autoImplicit false

namespace CheckPayment

/-- JS number that may be `NaN`: `none` models `NaN`. -/
abbrev JsNum := Option ℚ

/-- JS `a || b` where `a` is a possibly-`null`/`undefined` string: `null`,
`undefined` and `""` are falsy. -/
def jsOrStr (a : Option String) (b : String) : String :=
  match a with
  | none => b
  | some s => if s = "" then b else s

/-- Truthiness of a possibly-`null` string (`!address` test of line 9). -/
def jsTruthyOpt : Option String → Bool
  | none => false
  | some s => !(s = "")

/-- JS template-literal rendering of a possibly-`null` string
(`null` prints as `"null"`). -/
def jsShow : Option String → String
  | none => "null"
  | some s => s

/-- Character-list version of "is a prefix of". -/
def chPre : List Char → List Char → Bool
  | [], _ => true
  | _ :: _, [] => false
  | a :: as, b :: bs => a = b && chPre as bs

/-- Character-list version of substring containment. -/
def chSub (needle : List Char) : List Char → Bool
  | [] => chPre needle []
  | c :: rest => chPre needle (c :: rest) || chSub needle rest

/-- JS `hay.includes(needle)`. -/
def strHasSub (hay needle : String) : Bool :=
  chSub needle.data hay.data

/-- Character-list version of replace-first. -/
def chReplaceFirst (pat rep : List Char) : List Char → List Char
  | [] => []
  | c :: rest =>
    if chPre pat (c :: rest) then rep ++ (c :: rest).drop pat.length
    else c :: chReplaceFirst pat rep rest

/-- JS `s.replace(pat, rep)` with a string pattern: replaces the first
occurrence only. -/
def jsReplaceFirst (s pat rep : String) : String :=
  String.mk (chReplaceFirst pat.data rep.data s.data)

/-- Character-list version of take-until-first-occurrence. -/
def chTakeUntil (pat : List Char) : List Char → List Char
  | [] => []
  | c :: rest => if chPre pat (c :: rest) then [] else c :: chTakeUntil pat rest

/-- JS `s.split(pat)[0]` for a non-empty string pattern: the part of `s`
before the first occurrence of `pat` (all of `s` when `pat` never occurs). -/
def jsSplitHead (s pat : String) : String :=
  String.mk (chTakeUntil pat.data s.data)

/-- JS `s.toLowerCase()` on the ASCII strings (hex addresses) this handler
compares. -/
def strToLower (s : String) : String :=
  String.mk (s.data.map Char.toLower)

/-- Numeric value of a decimal digit character. -/
def digitVal (c : Char) : Option Nat :=
  if c.isDigit then some (c.toNat - 48) else none

/-- Split a character list into its longest leading run of decimal digits and
the rest. -/
def takeDigits : List Char → List Nat × List Char
  | [] => ([], [])
  | c :: cs =>
    match digitVal c with
    | some d => let (ds, rest) := takeDigits cs; (d :: ds, rest)
    | none => ([], c :: cs)

/-- Value of a digit list read in base 10. -/
def digitsToNat (ds : List Nat) : Nat :=
  ds.foldl (fun a d => a * 10 + d) 0

/-- Leading-digit parse used by `Number.parseInt` after the sign: `none`
models `NaN` (no digits at all). -/
def jsParseDigits (cs : List Char) : Option Nat :=
  let (ds, _) := takeDigits cs
  if ds.isEmpty then none else some (digitsToNat ds)

/-- JS `Number.parseInt` on the decimal strings this handler feeds it
(leading whitespace skipped, optional sign, longest digit run, trailing
garbage ignored; the hex `0x` form never arises from the explorer fields the
source parses).  `none` models `NaN`. -/
def jsParseInt (s : String) : Option Int :=
  match s.data.dropWhile (fun c => c.isWhitespace) with
  | '-' :: cs => (jsParseDigits cs).map (fun n => -(n : Int))
  | '+' :: cs => (jsParseDigits cs).map (fun n => (n : Int))
  | cs => (jsParseDigits cs).map (fun n => (n : Int))

/-- Fractional decimal parse after the sign: digits, optional point, digits;
at least one digit overall.  Trailing garbage is ignored as in JS. -/
def jsParseFloatCore (cs : List Char) : Option ℚ :=
  let (intDs, rest) := takeDigits cs
  match rest with
  | '.' :: cs2 =>
    let (fracDs, _) := takeDigits cs2
    if intDs.isEmpty && fracDs.isEmpty then none
    else some ((digitsToNat intDs : ℚ) + (digitsToNat fracDs : ℚ) / 10 ^ fracDs.length)
  | _ => if intDs.isEmpty then none else some ((digitsToNat intDs : ℚ))

/-- JS `Number.parseFloat` on plain decimal literals (optional sign, digits,
optional fraction; exponent suffixes and `Infinity` are outside the inputs
the claims concern).  `none` models `NaN`. -/
def jsParseFloat (s : String) : Option ℚ :=
  match s.data.dropWhile (fun c => c.isWhitespace) with
  | '-' :: cs => (jsParseFloatCore cs).map (fun q => -q)
  | '+' :: cs => jsParseFloatCore cs
  | cs => jsParseFloatCore cs

/-- Left-pad a natural number with zeros to the given width. -/
def padNum (width : Nat) (n : Nat) : String :=
  let s := toString n
  String.mk (List.replicate (width - s.length) '0') ++ s

/-- Proleptic-Gregorian conversion of a day count since 1970-01-01 to
(year, month, day). -/
def civilFromDays (z0 : Int) : Int × Int × Int :=
  let z := z0 + 719468
  let era : Int := z.fdiv 146097
  let doe : Int := z - era * 146097
  let yoe : Int := (doe - doe.fdiv 1460 + doe.fdiv 36524 - doe.fdiv 146096).fdiv 365
  let y : Int := yoe + era * 400
  let doy : Int := doe - (365 * yoe + yoe.fdiv 4 - yoe.fdiv 100)
  let mp : Int := (5 * doy + 2).fdiv 153
  let d : Int := doy - (153 * mp + 2).fdiv 5 + 1
  let m : Int := mp + (if mp < 10 then 3 else -9)
  (y + (if m ≤ 2 then 1 else 0), m, d)

/-- JS `new Date(ms).toISOString()` for instants with years 0000–9999 (the
expanded-year formats JS uses outside that range are outside the modelled
inputs). -/
def toISOString (ms : Int) : String :=
  let msPart := (ms.emod 1000).toNat
  let totalSecs := ms.fdiv 1000
  let secOfDay := (totalSecs.emod 86400).toNat
  let days := totalSecs.fdiv 86400
  let ymd := civilFromDays days
  padNum 4 ymd.1.toNat ++ "-" ++ padNum 2 ymd.2.1.toNat ++ "-" ++ padNum 2 ymd.2.2.toNat ++
    "T" ++ padNum 2 (secOfDay / 3600) ++ ":" ++ padNum 2 (secOfDay % 3600 / 60) ++ ":" ++
    padNum 2 (secOfDay % 60) ++ "." ++ padNum 3 msPart ++ "Z"

/-- An upstream token transfer (one element of `data.result`), with the
numeric string fields already carried as the numbers `Number.parseInt`
produces on them. -/
structure RawTx where
  hash : String
  fromAddr : String
  toAddr : String
  value : Int
  tokenDecimal : Nat
  timeStamp : Int
  confirmations : String
  blockNumber : String
deriving DecidableEq, Repr

/-- The `result` field of a parsed transfer-history body: absent, `null`, a
string, or an array of transactions (the shapes the handler distinguishes). -/
inductive ResultVal where
  | undef
  | nullv
  | strv (s : String)
  | arrv (txs : List RawTx)
deriving DecidableEq, Repr

/-- The value stored in `apiStatus.result` (`data.result || null`). -/
inductive ResultOut where
  | nullv
  | strv (s : String)
  | arrv (txs : List RawTx)
deriving DecidableEq, Repr

/-- JS `data.result || null`: `undefined`, `null` and `""` become `null`;
arrays (even empty ones) are truthy and kept. -/
def jsOrNull : ResultVal → ResultOut
  | .undef => .nullv
  | .nullv => .nullv
  | .strv s => if s = "" then .nullv else .strv s
  | .arrv txs => .arrv txs

/-- A truthy parsed upstream body, seen through the property accesses the
handler performs (`data.status`, `data.message`, `data.result`; a missing
property reads as `undefined` = `none`). -/
structure UpstreamBody where
  status : Option String
  message : Option String
  result : ResultVal
deriving DecidableEq, Repr

/-- The result of `JSON.parse` on a response body: either a falsy JSON value
(`null`, `false`, `0`, `""`), or a truthy value with its property reads. -/
inductive ParsedData where
  | falsyVal
  | body (b : UpstreamBody)
deriving DecidableEq, Repr

/-- The `apiStatus` object built at lines 136–140. -/
structure ApiStatus where
  status : String
  message : String
  result : ResultOut
deriving DecidableEq, Repr

/-- Lines 136–140: `{status: data.status || "0", message: data.message ||
"Unknown error", result: data.result || null}`. -/
def apiStatusOf (b : UpstreamBody) : ApiStatus :=
  { status := jsOrStr b.status "0"
    message := jsOrStr b.message "Unknown error"
    result := jsOrNull b.result }

/-- Outcome of one attempt of the endpoint loop (lines 45–96): the fetch
threw, the response was not ok, the body was not JSON, or it parsed. -/
inductive EndpointOutcome where
  | fetchError (msg : String)
  | httpError (status : Nat) (statusText : String)
  | parseError (msg : String)
  | parsed (d : ParsedData)
deriving DecidableEq, Repr

/-- State after the endpoint loop: `data` and `workingEndpoint` (set together
at lines 70–71) and `lastError`. -/
structure LoopResult where
  found : Option (ParsedData × String)
  lastError : Option String
deriving DecidableEq, Repr

/-- Lines 86–93: a fetch error whose message mentions `fetch failed` or
`ENOTFOUND` is rewritten to the serverless connectivity message. -/
def fetchErrMsg (msg : String) : String :=
  if strHasSub msg "fetch failed" || strHasSub msg "ENOTFOUND" then
    "Network connectivity issue in serverless environment"
  else msg

/-- The endpoint loop of lines 45–96: try each URL in order, record the last
error on failure, stop at the first successfully parsed body. -/
def tryEndpoints : List (String × EndpointOutcome) → Option String → LoopResult
  | [], le => ⟨none, le⟩
  | (url, out) :: rest, le =>
    match out with
    | .fetchError msg => tryEndpoints rest (some (fetchErrMsg msg))
    | .httpError st stx => tryEndpoints rest (some ("HTTP " ++ toString st ++ ": " ++ stx))
    | .parseError msg => tryEndpoints rest (some ("JSON parse error: " ++ msg))
    | .parsed d => ⟨some (d, url), le⟩

/-- Line 24: the literal fallback API key. -/
def fallbackApiKey : String := "YMURRBM3WND7ZIJM8S1C5HEQXQK6W4S45B"

/-- Line 25: the hardcoded USDT BEP-20 contract address. -/
def usdtContract : String := "0x55d398326f99059fF775485246999027B3197955"

/-- Lines 35–38: the two candidate transfer-history URLs. -/
def apiEndpoints (apiKey address : String) : List String :=
  [ "https://api.bscscan.com/api?module=account&action=tokentx&contractaddress=" ++
      usdtContract ++ "&address=" ++ address ++ "&page=1&offset=20&sort=desc&apikey=" ++ apiKey
  , "https://api-bsc.etherscan.io/api?module=account&action=tokentx&contractaddress=" ++
      usdtContract ++ "&address=" ++ address ++ "&page=1&offset=20&sort=desc&apikey=" ++ apiKey ]

/-- Line 182: `workingEndpoint.replace("tokentx", "tokenbalance").split("&page=")[0]
+ "&tag=latest"`. -/
def balanceUrl (workingEndpoint : String) : String :=
  jsSplitHead (jsReplaceFirst workingEndpoint "tokentx" "tokenbalance") "&page=" ++ "&tag=latest"

/-- A parsed token-balance body, through the property reads of lines 200–201. -/
structure BalanceBody where
  status : Option String
  result : Option String
deriving DecidableEq, Repr

/-- Outcome of the secondary token-balance call (lines 187–208): the fetch
threw (including abort), the response was not ok, `balanceResponse.json()`
threw, or a body was obtained. -/
inductive BalanceOutcome where
  | fetchError (msg : String)
  | notOk (status : Nat)
  | jsonError (msg : String)
  | ok (b : BalanceBody)
deriving DecidableEq, Repr

/-- Lines 198–205: overwrite the transfer-derived balance only when the
balance call is ok with body status `"1"`; then `balance =
Number.parseInt(balanceData.result || "0") / 10^18` (`none` = `NaN` when the
raw string has no leading digits). -/
def refineBalance (prior : ℚ) (out : BalanceOutcome) : JsNum :=
  match out with
  | .ok b =>
    if b.status = some "1" then
      match jsParseInt (jsOrStr b.result "0") with
      | some n => some ((n : ℚ) / 10 ^ 18)
      | none => none
    else some prior
  | _ => some prior

/-- Line 147: `Number.parseInt(tx.value) / Math.pow(10, Number.parseInt(tx.tokenDecimal))`. -/
def txAmount (tx : RawTx) : ℚ :=
  (tx.value : ℚ) / 10 ^ tx.tokenDecimal

/-- A processed transaction (lines 146–165). -/
structure ProcessedTx where
  hash : String
  fromAddr : String
  toAddr : String
  value : ℚ
  timestamp : String
  confirmations : String
  isRecent : Bool
  isToAddress : Bool
  isExpectedAmount : Bool
  blockNumber : String
deriving DecidableEq, Repr

/-- Lines 146–165: normalize one transaction and derive the three booleans.
`expected` is `Number.parseFloat(expectedAmount)` (`none` = `NaN`, and any
comparison against `NaN` is false). -/
def processTx (now : Int) (address : String) (expected : Option ℚ) (tx : RawTx) : ProcessedTx :=
  let amt := txAmount tx
  { hash := tx.hash
    fromAddr := tx.fromAddr
    toAddr := tx.toAddr
    value := amt
    timestamp := toISOString (tx.timeStamp * 1000)
    confirmations := tx.confirmations
    isRecent := decide (now - tx.timeStamp * 1000 < 3600000)
    isToAddress := strToLower tx.toAddr == strToLower address
    isExpectedAmount :=
      match expected with
      | none => false
      | some q => decide (|amt - q| < 1 / 1000)
    blockNumber := tx.blockNumber }

/-- The three mutable locals of lines 132–134 after the processing block. -/
structure ProcessOut where
  confirmed : Bool
  matchingTransactions : List ProcessedTx
  balance : ℚ
deriving DecidableEq, Repr

/-- Lines 132–177: when the body has `status === "1"` and an array `result`,
process the transactions, set `confirmed` from the matching count and
`balance` from the incoming transfers; otherwise leave the initial values. -/
def processBody (now : Int) (address : String) (expected : Option ℚ) (b : UpstreamBody) : ProcessOut :=
  if b.status = some "1" then
    match b.result with
    | .arrv txs =>
      let processedTxs := txs.map (processTx now address expected)
      let matching := processedTxs.filter
        (fun tx => tx.isRecent && tx.isToAddress && tx.isExpectedAmount)
      { confirmed := decide (0 < matching.length)
        matchingTransactions := matching
        balance := (processedTxs.filter (fun tx => tx.isToAddress)).foldl
          (fun sum tx => sum + tx.value) 0 }
    | _ => ⟨false, [], 0⟩
  else ⟨false, [], 0⟩

/-- A reshaped transaction of the final report (lines 215–222); note the
source copies six fields and drops `blockNumber` and the derived booleans. -/
structure TxOut where
  hash : String
  fromAddr : String
  toAddr : String
  value : ℚ
  timestamp : String
  confirmations : String
deriving DecidableEq, Repr

/-- Lines 215–222: the per-transaction reshaping of the final report. -/
def reshapeTx (tx : RawTx) : TxOut :=
  { hash := tx.hash
    fromAddr := tx.fromAddr
    toAddr := tx.toAddr
    value := txAmount tx
    timestamp := toISOString (tx.timeStamp * 1000)
    confirmations := tx.confirmations }

/-- The `debugInfo` bag, one shape per exit path (claim-relevant fields). -/
inductive DebugInfo where
  | missingParams (error : String) (address : Option String) (expectedAmount : Option String)
  | allFailed (error : String) (lastError : Option String) (testedEndpoints : List String)
      (manualVerificationUrl : String) (instructions : List String)
  | normal (workingEndpoint : String) (matchingTransactions : List ProcessedTx)
      (expectedAmount : JsNum) (address : String)
  | caught (error : String) (isNetworkError : Bool) (manualVerificationUrl : String)
      (fallbackInstructions : List String)
deriving DecidableEq, Repr

/-- A JSON response of the handler.  `none` in an `Option`-typed field means
the field is absent from that response body. -/
structure Response where
  httpStatus : Nat
  error : Option String := none
  confirmed : Bool
  balance : Option JsNum := none
  transactions : Option (List TxOut) := none
  manualMode : Option Bool := none
  apiStatus : Option ApiStatus := none
  debugInfo : DebugInfo
deriving DecidableEq, Repr

/-- Lines 10–21: the HTTP 400 missing-parameter response. -/
def missingParamsResponse (address expectedAmount : Option String) : Response :=
  { httpStatus := 400
    error := some "Missing parameters"
    confirmed := false
    debugInfo := .missingParams "Missing address or amount parameter" address expectedAmount }

/-- Lines 118–123: the manual-mode instruction list. -/
def manualInstructions : List String :=
  [ "1. Visit BSCScan manually using the link above"
  , "2. Look for recent USDT transfers to your address"
  , "3. Copy the transaction hash from BSCScan"
  , "4. Use manual verification in the app" ]

/-- Lines 99–128: the manual-verification response returned when `data` is
still falsy after the loop. -/
def allFailedResponse (apiKey address : String) (endpoints : List String)
    (lastError : Option String) : Response :=
  { httpStatus := 200
    confirmed := false
    balance := some (some 0)
    transactions := some []
    manualMode := some true
    apiStatus := some
      { status := "0"
        message := "All API endpoints failed. Last error: " ++ jsShow lastError
        result := .strv "Manual verification required" }
    debugInfo := .allFailed "All API endpoints failed" lastError
      (endpoints.map (fun u => jsReplaceFirst u apiKey "***"))
      ("https://bscscan.com/token/" ++ usdtContract ++ "?a=" ++ address)
      manualInstructions }

/-- Lines 249–252: the connectivity keyword test of the top-level catch. -/
def isNetworkErrorMsg (msg : String) : Bool :=
  strHasSub msg "fetch failed" || strHasSub msg "ENOTFOUND" || strHasSub msg "timeout"

/-- Lines 272–277. -/
def fallbackInstructions : List String :=
  [ "Network restrictions in serverless environment detected"
  , "Use manual verification with transaction hash"
  , "Check BSCScan directly for recent transactions"
  , "Copy transaction hash and verify manually" ]

/-- Lines 240–280: the top-level catch handler, for an `Error` with the given
message. -/
def catchResponse (errorMessage : String) : Response :=
  let isNetworkError := isNetworkErrorMsg errorMessage
  { httpStatus := 200
    confirmed := false
    balance := some (some 0)
    transactions := some []
    manualMode := some isNetworkError
    apiStatus := some
      { status := "0"
        message := if isNetworkError then
            "Network connectivity issue in serverless environment"
          else "Request failed"
        result := .strv errorMessage }
    debugInfo := .caught errorMessage isNetworkError
      "https://bscscan.com/token/0x55d398326f99059fF775485246999027B3197955?a=0xa85BAC140e091e5b74c235F666e8C9849a7BBA55"
      fallbackInstructions }

/-- The V8 message of the `TypeError` thrown at line 215 when `data.result`
is a truthy non-array (a string there survives `.slice` but has no `.map`). -/
def sliceMapTypeError : String := "data.result.slice(...).map is not a function"

/-- The world the handler runs in: the call instant, the optional
`BSCSCAN_API_KEY` environment variable, the outcome of fetching each of the
two candidate endpoints, and the outcome of the balance call as a function of
the URL it is issued to. -/
structure Env where
  now : Int
  bscscanApiKeyEnv : Option String
  outcome1 : EndpointOutcome
  outcome2 : EndpointOutcome
  balanceFetch : String → BalanceOutcome

/-- The inbound request: the two query parameters as `searchParams.get`
returns them. -/
structure Request where
  address : Option String
  amount : Option String

/-- Lines 211–239 (the normal report), with its `debugInfo` of lines 225–235. -/
def normalResponse (confirmed : Bool) (balance : JsNum) (txOuts : List TxOut)
    (apiStatus : ApiStatus) (workingEndpoint apiKey : String)
    (matching : List ProcessedTx) (expected : JsNum) (address : String) : Response :=
  { httpStatus := 200
    confirmed := confirmed
    balance := some balance
    transactions := some txOuts
    manualMode := none
    apiStatus := some apiStatus
    debugInfo := .normal (jsReplaceFirst workingEndpoint apiKey "***") matching expected address }

/-- Lines 130–239 given a truthy parsed body: compute `apiStatus`, process
the transactions, refine the balance, then shape the final report — where a
truthy non-array `data.result` makes `.slice(0,10).map` throw a `TypeError`
that the top-level catch turns into `catchResponse`. -/
def handleBody (address expectedAmount : String) (env : Env)
    (etherscanApiKey workingEndpoint : String) (b : UpstreamBody) : Response :=
  let apiStatus := apiStatusOf b
  let expected := jsParseFloat expectedAmount
  let p := processBody env.now address expected b
  let balance := refineBalance p.balance (env.balanceFetch (balanceUrl workingEndpoint))
  match b.result with
  | .arrv txs =>
    normalResponse p.confirmed balance ((txs.take 10).map reshapeTx) apiStatus
      workingEndpoint etherscanApiKey p.matchingTransactions expected address
  | .strv s =>
    if s = "" then
      normalResponse p.confirmed balance [] apiStatus
        workingEndpoint etherscanApiKey p.matchingTransactions expected address
    else catchResponse sliceMapTypeError
  | _ =>
    normalResponse p.confirmed balance [] apiStatus
      workingEndpoint etherscanApiKey p.matchingTransactions expected address

/-- The endpoint loop as run by the handler: each candidate URL paired with
the outcome the environment assigns to fetching it. -/
def runLoop (address : String) (env : Env) : LoopResult :=
  tryEndpoints
    ((apiEndpoints (jsOrStr env.bscscanApiKeyEnv fallbackApiKey) address).zip
      [env.outcome1, env.outcome2]) none

/-- Lines 24–239 once the parameters are present: resolve the API key, run
the endpoint loop, and either return the manual-mode report (when `data` is
still falsy) or handle the parsed body. -/
def mainFlow (address expectedAmount : String) (env : Env) : Response :=
  let etherscanApiKey := jsOrStr env.bscscanApiKeyEnv fallbackApiKey
  let loop := runLoop address env
  match loop.found with
  | none =>
    allFailedResponse etherscanApiKey address (apiEndpoints etherscanApiKey address) loop.lastError
  | some (.falsyVal, _) =>
    allFailedResponse etherscanApiKey address (apiEndpoints etherscanApiKey address) loop.lastError
  | some (.body b, workingEndpoint) =>
    handleBody address expectedAmount env etherscanApiKey workingEndpoint b

/-- The route handler `GET` (lines 3–281). -/
def GET (req : Request) (env : Env) : Response :=
  match req.address, req.amount with
  | some address, some expectedAmount =>
    if address = "" ∨ expectedAmount = "" then
      missingParamsResponse (some address) (some expectedAmount)
    else mainFlow address expectedAmount env
  | a, e => missingParamsResponse a e

/-- Whether a `debugInfo` bag comes from the manual-verification
(all-endpoints-failed) exit of lines 99–128. -/
def isAllFailedDebug : DebugInfo → Bool
  | .allFailed _ _ _ _ _ => true
  | _ => false

/-- The `result` shapes that survive lines 214–223 without throwing: arrays
and falsy values; a truthy string makes `.slice(0,10).map` throw. -/
def resultShapable : ResultVal → Bool
  | .strv s => s == ""
  | _ => true

/-- The failure modes of the secondary balance call in the sense of the spec:
anything except an ok response whose body has status `"1"`. -/
def balanceFailed : BalanceOutcome → Bool
  | .ok b => !(b.status == some "1")
  | _ => true

section Lemmas

lemma jsTruthyOpt_eq_false {o : Option String} :
    jsTruthyOpt o = false ↔ o = none ∨ o = some "" := by
  cases o with
  | none => simp [jsTruthyOpt]
  | some s => simp [jsTruthyOpt]

lemma GET_eq_mainFlow (a m : String) (env : Env) (h1 : a ≠ "") (h2 : m ≠ "") :
    GET ⟨some a, some m⟩ env = mainFlow a m env := by
  simp [GET, h1, h2]

lemma GET_found_body (a m : String) (env : Env) (b : UpstreamBody) (url : String)
    (h1 : a ≠ "") (h2 : m ≠ "")
    (hloop : (runLoop a env).found = some (.body b, url)) :
    GET ⟨some a, some m⟩ env =
      handleBody a m env (jsOrStr env.bscscanApiKeyEnv fallbackApiKey) url b := by
  rw [GET_eq_mainFlow a m env h1 h2]
  simp only [mainFlow]
  rw [hloop]

lemma GET_found_none (a m : String) (env : Env)
    (h1 : a ≠ "") (h2 : m ≠ "")
    (hloop : (runLoop a env).found = none) :
    GET ⟨some a, some m⟩ env =
      allFailedResponse (jsOrStr env.bscscanApiKeyEnv fallbackApiKey) a
        (apiEndpoints (jsOrStr env.bscscanApiKeyEnv fallbackApiKey) a)
        (runLoop a env).lastError := by
  rw [GET_eq_mainFlow a m env h1 h2]
  simp only [mainFlow]
  rw [hloop]

lemma GET_found_falsy (a m : String) (env : Env) (url : String)
    (h1 : a ≠ "") (h2 : m ≠ "")
    (hloop : (runLoop a env).found = some (.falsyVal, url)) :
    GET ⟨some a, some m⟩ env =
      allFailedResponse (jsOrStr env.bscscanApiKeyEnv fallbackApiKey) a
        (apiEndpoints (jsOrStr env.bscscanApiKeyEnv fallbackApiKey) a)
        (runLoop a env).lastError := by
  rw [GET_eq_mainFlow a m env h1 h2]
  simp only [mainFlow]
  rw [hloop]

lemma handleBody_arr (a m : String) (env : Env) (k w : String) (b : UpstreamBody)
    (txs : List RawTx) (hres : b.result = .arrv txs) :
    handleBody a m env k w b =
      normalResponse (processBody env.now a (jsParseFloat m) b).confirmed
        (refineBalance (processBody env.now a (jsParseFloat m) b).balance
          (env.balanceFetch (balanceUrl w)))
        ((txs.take 10).map reshapeTx) (apiStatusOf b) w k
        (processBody env.now a (jsParseFloat m) b).matchingTransactions
        (jsParseFloat m) a := by
  simp only [handleBody]
  rw [hres]

lemma handleBody_strv_truthy (a m : String) (env : Env) (k w : String) (b : UpstreamBody)
    (s : String) (hres : b.result = .strv s) (hs : s ≠ "") :
    handleBody a m env k w b = catchResponse sliceMapTypeError := by
  simp only [handleBody]
  rw [hres]
  simp [hs]

lemma handleBody_empty (a m : String) (env : Env) (k w : String) (b : UpstreamBody)
    (hres : b.result = .undef ∨ b.result = .nullv ∨ b.result = .strv "") :
    handleBody a m env k w b =
      normalResponse (processBody env.now a (jsParseFloat m) b).confirmed
        (refineBalance (processBody env.now a (jsParseFloat m) b).balance
          (env.balanceFetch (balanceUrl w)))
        [] (apiStatusOf b) w k
        (processBody env.now a (jsParseFloat m) b).matchingTransactions
        (jsParseFloat m) a := by
  simp only [handleBody]
  rcases hres with h | h | h <;> rw [h]
  simp

lemma handleBody_httpStatus (a m : String) (env : Env) (k w : String) (b : UpstreamBody) :
    (handleBody a m env k w b).httpStatus = 200 := by
  rcases hres : b.result with _ | _ | s | txs
  · rw [handleBody_empty a m env k w b (Or.inl hres)]; rfl
  · rw [handleBody_empty a m env k w b (Or.inr (Or.inl hres))]; rfl
  · by_cases hs : s = ""
    · rw [handleBody_empty a m env k w b (Or.inr (Or.inr (hs ▸ hres)))]; rfl
    · rw [handleBody_strv_truthy a m env k w b s hres hs]; rfl
  · rw [handleBody_arr a m env k w b txs hres]; rfl

lemma handleBody_debug_not_allFailed (a m : String) (env : Env) (k w : String)
    (b : UpstreamBody) :
    isAllFailedDebug (handleBody a m env k w b).debugInfo = false := by
  rcases hres : b.result with _ | _ | s | txs
  · rw [handleBody_empty a m env k w b (Or.inl hres)]; rfl
  · rw [handleBody_empty a m env k w b (Or.inr (Or.inl hres))]; rfl
  · by_cases hs : s = ""
    · rw [handleBody_empty a m env k w b (Or.inr (Or.inr (hs ▸ hres)))]; rfl
    · rw [handleBody_strv_truthy a m env k w b s hres hs]; rfl
  · rw [handleBody_arr a m env k w b txs hres]; rfl

lemma refineBalance_failed (prior : ℚ) (out : BalanceOutcome)
    (h : balanceFailed out = true) :
    refineBalance prior out = some prior := by
  cases out with
  | ok bb =>
    have hb : ¬ bb.status = some "1" := by
      simpa [balanceFailed] using h
    simp [refineBalance, hb]
  | fetchError msg => rfl
  | notOk st => rfl
  | jsonError msg => rfl

lemma mainFlow_httpStatus (a m : String) (env : Env) :
    (mainFlow a m env).httpStatus = 200 := by
  simp only [mainFlow]
  rcases hloop : (runLoop a env).found with _ | ⟨d, u⟩
  · rfl
  · cases d with
    | falsyVal => rfl
    | body b => exact handleBody_httpStatus a m env _ u b

lemma processBody_arr (now : Int) (addr : String) (exp : Option ℚ) (b : UpstreamBody)
    (txs : List RawTx) (hstat : b.status = some "1") (hres : b.result = .arrv txs) :
    processBody now addr exp b =
      { confirmed := decide (0 < ((txs.map (processTx now addr exp)).filter
          (fun tx => tx.isRecent && tx.isToAddress && tx.isExpectedAmount)).length)
        matchingTransactions := (txs.map (processTx now addr exp)).filter
          (fun tx => tx.isRecent && tx.isToAddress && tx.isExpectedAmount)
        balance := ((txs.map (processTx now addr exp)).filter
          (fun tx => tx.isToAddress)).foldl (fun sum tx => sum + tx.value) 0 } := by
  simp only [processBody, hstat, hres, if_pos]

lemma processTx_isRecent (now : Int) (addr : String) (exp : Option ℚ) (tx : RawTx) :
    (processTx now addr exp tx).isRecent = decide (now - tx.timeStamp * 1000 < 3600000) := rfl

lemma processTx_isToAddress (now : Int) (addr : String) (exp : Option ℚ) (tx : RawTx) :
    (processTx now addr exp tx).isToAddress = (strToLower tx.toAddr == strToLower addr) := rfl

lemma processTx_isExpectedAmount (now : Int) (addr : String) (q : ℚ) (tx : RawTx) :
    (processTx now addr (some q) tx).isExpectedAmount = decide (|txAmount tx - q| < 1 / 1000) := rfl

lemma processTx_value (now : Int) (addr : String) (exp : Option ℚ) (tx : RawTx) :
    (processTx now addr exp tx).value = txAmount tx := rfl

lemma processBody_confirmed_iff (now : Int) (addr : String) (q : ℚ) (b : UpstreamBody)
    (txs : List RawTx) (hstat : b.status = some "1") (hres : b.result = .arrv txs) :
    (processBody now addr (some q) b).confirmed = true ↔
      ∃ tx ∈ txs, now - tx.timeStamp * 1000 < 3600000 ∧
        strToLower tx.toAddr = strToLower addr ∧ |txAmount tx - q| < 1 / 1000 := by
  rw [processBody_arr now addr (some q) b txs hstat hres]
  simp only [decide_eq_true_eq, List.length_pos_iff_exists_mem]
  constructor
  · rintro ⟨ptx, hmem⟩
    rw [List.mem_filter, List.mem_map] at hmem
    obtain ⟨⟨tx, htx, rfl⟩, hpred⟩ := hmem
    refine ⟨tx, htx, ?_⟩
    rw [Bool.and_eq_true, Bool.and_eq_true, processTx_isRecent, processTx_isToAddress,
      processTx_isExpectedAmount] at hpred
    obtain ⟨⟨hr, ht⟩, he⟩ := hpred
    exact ⟨by simpa using hr, by simpa using ht, by simpa using he⟩
  · rintro ⟨tx, htx, hr, ht, he⟩
    refine ⟨processTx now addr (some q) tx, ?_⟩
    rw [List.mem_filter, List.mem_map]
    refine ⟨⟨tx, htx, rfl⟩, ?_⟩
    rw [Bool.and_eq_true, Bool.and_eq_true, processTx_isRecent, processTx_isToAddress,
      processTx_isExpectedAmount]
    exact ⟨⟨by simpa using hr, by simpa using ht⟩, by simpa using he⟩

lemma balance_fold (now : Int) (addr : String) (exp : Option ℚ) (txs : List RawTx) (a : ℚ) :
    ((txs.map (processTx now addr exp)).filter (fun tx => tx.isToAddress)).foldl
        (fun sum tx => sum + tx.value) a =
      a + ((txs.filter (fun tx => strToLower tx.toAddr == strToLower addr)).map txAmount).sum := by
  induction txs generalizing a with
  | nil => simp
  | cons x xs ih =>
    simp only [List.map_cons, List.filter_cons, processTx_isToAddress]
    by_cases hx : strToLower x.toAddr == strToLower addr
    · rw [if_pos hx, if_pos hx]
      simp only [List.foldl_cons, processTx_value, List.map_cons, List.sum_cons, ih, add_assoc]
    · rw [if_neg hx, if_neg hx]
      exact ih a

lemma GET_confirmed_iff (a m : String) (env : Env) (b : UpstreamBody) (txs : List RawTx)
    (url : String) (q : ℚ) (h1 : a ≠ "") (h2 : m ≠ "")
    (hloop : (runLoop a env).found = some (.body b, url))
    (hstat : b.status = some "1") (hres : b.result = .arrv txs)
    (hamt : jsParseFloat m = some q) :
    (GET ⟨some a, some m⟩ env).confirmed = true ↔
      ∃ tx ∈ txs, env.now - tx.timeStamp * 1000 < 3600000 ∧
        strToLower tx.toAddr = strToLower a ∧ |txAmount tx - q| < 1 / 1000 := by
  rw [GET_found_body a m env b url h1 h2 hloop,
    handleBody_arr a m env _ url b txs hres]
  show (processBody env.now a (jsParseFloat m) b).confirmed = true ↔ _
  rw [hamt]
  exact processBody_confirmed_iff env.now a q b txs hstat hres

end Lemmas

section WitnessData

/-- A sample requested address. -/
def wAddr : String := "0xAbCd"

/-- The first candidate endpoint URL for an address, with the fallback key. -/
def wUrl (addr : String) : String := (apiEndpoints fallbackApiKey addr).headD ""

/-- A transfer of 1.5 tokens to `wAddr` one second before the sample call time. -/
def wTx1 : RawTx :=
  { hash := "0xh1", fromAddr := "0xf1", toAddr := "0xabcd", value := 1500000
    tokenDecimal := 6, timeStamp := 1699999999, confirmations := "12", blockNumber := "100" }

/-- An upstream body with status `"1"` and the single transfer `wTx1`. -/
def wBody1 : UpstreamBody :=
  { status := some "1", message := some "OK", result := .arrv [wTx1] }

/-- A world where the first endpoint parses to `wBody1` and the balance call
fails with HTTP 404. -/
def wEnv1 : Env :=
  { now := 1700000000000, bscscanApiKeyEnv := none
    outcome1 := .parsed (.body wBody1), outcome2 := .fetchError "unused"
    balanceFetch := fun _ => .notOk 404 }

/-- A transfer of 1.5 tokens to `wAddr` dated 100 seconds in the future of
the sample call time. -/
def wTxF : RawTx :=
  { hash := "0xh2", fromAddr := "0xf2", toAddr := "0xabcd", value := 1500000
    tokenDecimal := 6, timeStamp := 1700000100, confirmations := "0", blockNumber := "101" }

/-- An upstream body carrying only the future-dated transfer `wTxF`. -/
def wBodyF : UpstreamBody :=
  { status := some "1", message := some "OK", result := .arrv [wTxF] }

/-- A world where the first endpoint parses to `wBodyF`. -/
def wEnvF : Env :=
  { now := 1700000000000, bscscanApiKeyEnv := none
    outcome1 := .parsed (.body wBodyF), outcome2 := .fetchError "unused"
    balanceFetch := fun _ => .notOk 404 }

/-- A world where both endpoints fail. -/
def wEnvA : Env :=
  { now := 0, bscscanApiKeyEnv := none
    outcome1 := .fetchError "fetch failed: network down", outcome2 := .httpError 403 "Forbidden"
    balanceFetch := fun _ => .notOk 500 }

/-- A second, different world where both endpoints fail. -/
def wEnvB : Env :=
  { now := 5, bscscanApiKeyEnv := some "OTHERKEY"
    outcome1 := .parseError "Unexpected token <", outcome2 := .fetchError "timeout"
    balanceFetch := fun _ => .fetchError "z" }

/-- A world where the first endpoint's body parses to the falsy JSON value
`null` while the second endpoint would have delivered a good body. -/
def cexEnv2 : Env :=
  { now := 0, bscscanApiKeyEnv := none
    outcome1 := .parsed .falsyVal, outcome2 := .parsed (.body wBody1)
    balanceFetch := fun _ => .notOk 404 }

/-- A typical rate-limited upstream body: truthy string `result`. -/
def cexBody3 : UpstreamBody :=
  { status := some "1", message := some "OK", result := .strv "Max rate limit reached" }

/-- A world where the first endpoint parses to `cexBody3` and the balance
call succeeds with status `"1"` and raw balance 2.5e18. -/
def cexEnv3 : Env :=
  { now := 0, bscscanApiKeyEnv := none
    outcome1 := .parsed (.body cexBody3), outcome2 := .fetchError "unused"
    balanceFetch := fun _ => .ok ⟨some "1", some "2500000000000000000"⟩ }

/-- A world where the balance call succeeds with status `"1"` and raw
balance 2.5e18 after a good transfer body. -/
def wEnv3 : Env :=
  { now := 1700000000000, bscscanApiKeyEnv := none
    outcome1 := .parsed (.body wBody1), outcome2 := .fetchError "unused"
    balanceFetch := fun _ => .ok ⟨some "1", some "2500000000000000000"⟩ }

/-- An upstream body whose `result` is the falsy JSON value `null`. -/
def wBody3b : UpstreamBody :=
  { status := some "0", message := some "No transactions found", result := .nullv }

/-- A world where the first endpoint parses to the falsy-result body
`wBody3b` and the balance call succeeds with status `"1"` and raw balance
2.5e18. -/
def wEnv3b : Env :=
  { now := 0, bscscanApiKeyEnv := none
    outcome1 := .parsed (.body wBody3b), outcome2 := .fetchError "unused"
    balanceFetch := fun _ => .ok ⟨some "1", some "2500000000000000000"⟩ }

/-- An upstream body with a non-`"1"` status and a truthy string `result`. -/
def cexBody5 : UpstreamBody :=
  { status := some "2", message := some "hello", result := .strv "x" }

/-- A world where the first endpoint parses to `cexBody5`. -/
def cexEnv5 : Env :=
  { now := 0, bscscanApiKeyEnv := none
    outcome1 := .parsed (.body cexBody5), outcome2 := .fetchError "unused"
    balanceFetch := fun _ => .notOk 404 }

/-- A transfer to a third party (`to` differs from the requested address). -/
def wTx7a : RawTx :=
  { hash := "0xh7", fromAddr := "0xf7", toAddr := "0xother", value := 1500000
    tokenDecimal := 6, timeStamp := 1699999999, confirmations := "3", blockNumber := "777" }

/-- The same transfer as `wTx7a` except for its `blockNumber`. -/
def wTx7b : RawTx :=
  { hash := "0xh7", fromAddr := "0xf7", toAddr := "0xother", value := 1500000
    tokenDecimal := 6, timeStamp := 1699999999, confirmations := "3", blockNumber := "778" }

/-- An upstream body delivering only `wTx7a`. -/
def wBody7a : UpstreamBody :=
  { status := some "1", message := some "OK", result := .arrv [wTx7a] }

/-- An upstream body delivering only `wTx7b`. -/
def wBody7b : UpstreamBody :=
  { status := some "1", message := some "OK", result := .arrv [wTx7b] }

/-- A world delivering only `wTx7a`. -/
def cexEnv7a : Env :=
  { now := 1700000000000, bscscanApiKeyEnv := none
    outcome1 := .parsed (.body wBody7a)
    outcome2 := .fetchError "unused", balanceFetch := fun _ => .notOk 404 }

/-- A world delivering only `wTx7b`. -/
def cexEnv7b : Env :=
  { now := 1700000000000, bscscanApiKeyEnv := none
    outcome1 := .parsed (.body wBody7b)
    outcome2 := .fetchError "unused", balanceFetch := fun _ => .notOk 404 }

/-- Eleven copies of the sample transfer, to exercise truncation. -/
def wTxsMany : List RawTx := List.replicate 11 wTx1

/-- An upstream body with eleven transactions. -/
def wBodyMany : UpstreamBody :=
  { status := some "1", message := some "OK", result := .arrv wTxsMany }

/-- A world delivering eleven transactions. -/
def wEnvMany : Env :=
  { now := 1700000000000, bscscanApiKeyEnv := none
    outcome1 := .parsed (.body wBodyMany), outcome2 := .fetchError "unused"
    balanceFetch := fun _ => .notOk 404 }

/-- `Number.parseFloat("1.5")` evaluates to the rational 3/2. -/
lemma jsParseFloat_sample : jsParseFloat "1.5" = some (3 / 2 : ℚ) := by
  have h : jsParseFloat "1.5" = some ((1 : ℚ) + (5 : ℚ) / 10 ^ 1) := rfl
  rw [h]; norm_num

/-- The sample transfers carry exactly the amount 3/2. -/
lemma wTx_amount_close : |txAmount wTx1 - (3 / 2 : ℚ)| < 1 / 1000 ∧
    |txAmount wTxF - (3 / 2 : ℚ)| < 1 / 1000 := by
  constructor <;> norm_num [txAmount, wTx1, wTxF]

end WitnessData

/-- C1: for a request with both parameters present, when the first
successfully parsed upstream body has status `"1"` and an array result, the
report's `confirmed` field is true iff at least one transaction satisfies the
three derived booleans: `isRecent` (its timeStamp is within the last 3600
seconds of call time), `isToAddress` (its `to` equals the requested address
case-insensitively) and `isExpectedAmount` (the absolute difference between
`value / 10^tokenDecimal` and the requested amount is below 0.001). -/
theorem confirmed_iff_matching_transaction (a m : String) (env : Env) (b : UpstreamBody)
    (txs : List RawTx) (url : String) (q : ℚ) (h1 : a ≠ "") (h2 : m ≠ "")
    (hloop : (runLoop a env).found = some (.body b, url))
    (hstat : b.status = some "1") (hres : b.result = .arrv txs)
    (hamt : jsParseFloat m = some q) :
    (GET ⟨some a, some m⟩ env).confirmed = true ↔
      ∃ tx ∈ txs, env.now - tx.timeStamp * 1000 < 3600000 ∧
        strToLower tx.toAddr = strToLower a ∧ |txAmount tx - q| < 1 / 1000 :=
  GET_confirmed_iff a m env b txs url q h1 h2 hloop hstat hres hamt

/-- Witness for C1: in the concrete world `wEnv1`, the hypotheses hold and
the report is confirmed because `wTx1` matches. -/
theorem confirmed_iff_matching_transaction_witness :
    (runLoop wAddr wEnv1).found = some (.body wBody1, wUrl wAddr) ∧
    jsParseFloat "1.5" = some (3 / 2 : ℚ) ∧
    ((GET ⟨some wAddr, some "1.5"⟩ wEnv1).confirmed = true ↔
      ∃ tx ∈ [wTx1], wEnv1.now - tx.timeStamp * 1000 < 3600000 ∧
        strToLower tx.toAddr = strToLower wAddr ∧ |txAmount tx - (3 / 2 : ℚ)| < 1 / 1000) :=
  ⟨rfl, jsParseFloat_sample,
    confirmed_iff_matching_transaction wAddr "1.5" wEnv1 wBody1 [wTx1] (wUrl wAddr) (3 / 2)
      (by decide) (by decide) rfl rfl rfl jsParseFloat_sample⟩

/-- C9: a request with a missing or empty `address` or `amount` parameter
yields the HTTP 400 response with `confirmed:false` and a `debugInfo`
echoing the received values, and the response does not depend on the outside
world (no outbound call is made). -/
theorem missing_params_client_error (req : Request) (env env2 : Env)
    (h : jsTruthyOpt req.address = false ∨ jsTruthyOpt req.amount = false) :
    GET req env = missingParamsResponse req.address req.amount ∧
      (GET req env).httpStatus = 400 ∧ (GET req env).confirmed = false ∧
      (GET req env).debugInfo =
        .missingParams "Missing address or amount parameter" req.address req.amount ∧
      GET req env = GET req env2 := by
  have key : ∀ e : Env, GET req e = missingParamsResponse req.address req.amount := by
    intro e
    rcases req with ⟨a, m⟩
    rcases a with _ | a
    · rfl
    · rcases m with _ | m
      · rfl
      · have hcond : a = "" ∨ m = "" := by
          rcases h with h | h <;> rw [jsTruthyOpt_eq_false] at h <;> rcases h with h | h <;>
            simp_all
        simp only [GET]
        rw [if_pos hcond]
  exact ⟨key env, by rw [key env]; rfl, by rw [key env]; rfl, by rw [key env]; rfl,
    (key env).trans (key env2).symm⟩

/-- Witness for C9: a request with no `address` parameter is a 400 in any
world, identically across worlds. -/
theorem missing_params_client_error_witness :
    jsTruthyOpt (none : Option String) = false ∧
    (GET ⟨none, some "2"⟩ wEnvA).httpStatus = 400 ∧
    GET ⟨none, some "2"⟩ wEnvA = GET ⟨none, some "2"⟩ wEnvB :=
  ⟨rfl, (missing_params_client_error ⟨none, some "2"⟩ wEnvA wEnvB (Or.inl rfl)).2.1,
    (missing_params_client_error ⟨none, some "2"⟩ wEnvA wEnvB (Or.inl rfl)).2.2.2.2⟩

/-- C10: the recency check has no lower bound on the transaction time: any
transaction at or after call time has `isRecent = true`; `isRecent` is false
exactly when the transaction is at least 3600 seconds in the past; and a
future-dated transaction with matching recipient and amount makes the report
confirmed. -/
theorem isRecent_unbounded_future :
    (∀ (now : Int) (addr : String) (exp : Option ℚ) (tx : RawTx),
      now ≤ tx.timeStamp * 1000 → (processTx now addr exp tx).isRecent = true) ∧
    (∀ (now : Int) (addr : String) (exp : Option ℚ) (tx : RawTx),
      (processTx now addr exp tx).isRecent = false ↔ 3600000 ≤ now - tx.timeStamp * 1000) ∧
    (∀ (a m : String) (env : Env) (b : UpstreamBody) (txs : List RawTx) (url : String)
      (q : ℚ) (tx : RawTx), a ≠ "" → m ≠ "" →
      (runLoop a env).found = some (.body b, url) →
      b.status = some "1" → b.result = .arrv txs → jsParseFloat m = some q →
      tx ∈ txs → env.now ≤ tx.timeStamp * 1000 →
      strToLower tx.toAddr = strToLower a → |txAmount tx - q| < 1 / 1000 →
      (GET ⟨some a, some m⟩ env).confirmed = true) := by
  refine ⟨?_, ?_, ?_⟩
  · intro now addr exp tx h
    rw [processTx_isRecent, decide_eq_true_eq]
    omega
  · intro now addr exp tx
    rw [processTx_isRecent, decide_eq_false_iff_not]
    omega
  · intro a m env b txs url q tx h1 h2 hloop hstat hres hamt htx hfut ht he
    rw [GET_confirmed_iff a m env b txs url q h1 h2 hloop hstat hres hamt]
    exact ⟨tx, htx, by omega, ht, he⟩

/-- Witness for C10: a transaction dated 100 seconds in the future still
confirms the payment. -/
theorem isRecent_unbounded_future_witness :
    wEnvF.now ≤ wTxF.timeStamp * 1000 ∧
    (GET ⟨some wAddr, some "1.5"⟩ wEnvF).confirmed = true :=
  ⟨by decide,
    isRecent_unbounded_future.2.2 wAddr "1.5" wEnvF wBodyF [wTxF] (wUrl wAddr) (3 / 2) wTxF
      (by decide) (by decide) rfl rfl rfl jsParseFloat_sample (List.mem_singleton.mpr rfl)
      (by decide) (by decide) wTx_amount_close.2⟩

/-- C6: the top-level catch reports any error as HTTP 200 with
`confirmed:false`, `balance:0`, `transactions:[]`, and `manualMode` true iff
the error message mentions `fetch failed`, `ENOTFOUND` or `timeout`; and no
response of the handler has a non-200 status other than the
missing-parameter 400. -/
theorem top_level_catch_classification :
    (∀ msg : String, (catchResponse msg).httpStatus = 200 ∧
      (catchResponse msg).confirmed = false ∧
      (catchResponse msg).balance = some (some 0) ∧
      (catchResponse msg).transactions = some [] ∧
      ((catchResponse msg).manualMode = some true ↔
        (strHasSub msg "fetch failed" = true ∨ strHasSub msg "ENOTFOUND" = true ∨
          strHasSub msg "timeout" = true))) ∧
    (∀ (req : Request) (env : Env), (GET req env).httpStatus = 200 ∨
      ((GET req env).httpStatus = 400 ∧
        (jsTruthyOpt req.address = false ∨ jsTruthyOpt req.amount = false))) := by
  constructor
  · intro msg
    refine ⟨rfl, rfl, rfl, rfl, ?_⟩
    simp [catchResponse, isNetworkErrorMsg, Bool.or_eq_true, or_assoc]
  · intro req env
    rcases req with ⟨a, m⟩
    rcases a with _ | a
    · exact Or.inr ⟨rfl, Or.inl rfl⟩
    · rcases m with _ | m
      · exact Or.inr ⟨rfl, Or.inr rfl⟩
      · by_cases hc : a = "" ∨ m = ""
        · refine Or.inr ⟨?_, ?_⟩
          · simp only [GET]
            rw [if_pos hc]
            rfl
          · rcases hc with h | h
            · exact Or.inl (jsTruthyOpt_eq_false.mpr (Or.inr (by rw [h])))
            · exact Or.inr (jsTruthyOpt_eq_false.mpr (Or.inr (by rw [h])))
        · push_neg at hc
          exact Or.inl (by rw [GET_eq_mainFlow a m env hc.1 hc.2]; exact mainFlow_httpStatus a m env)

/-- Counterexample to C2 as stated: the first endpoint's body parses as JSON
(to the falsy value `null`), which stops the iteration, yet the handler still
returns the manual-mode report rather than the normal report, and not every
endpoint failed. -/
theorem manual_mode_counterexample :
    cexEnv2.outcome1 = .parsed .falsyVal ∧
    (GET ⟨some wAddr, some "1.5"⟩ cexEnv2).manualMode = some true ∧
    (GET ⟨some wAddr, some "1.5"⟩ cexEnv2).httpStatus = 200 ∧
    isAllFailedDebug (GET ⟨some wAddr, some "1.5"⟩ cexEnv2).debugInfo = true :=
  ⟨rfl, rfl, rfl, rfl⟩

/-- C2 (amended): for a request with both parameters present, the manual-mode
report is returned iff the endpoint loop found no parsed body or the first
parsed body was a falsy JSON value; and the loop finds no parsed body iff
every candidate endpoint fails (by fetch error, non-ok HTTP status, or JSON
parse failure — i.e. neither outcome is a successful parse). -/
theorem manual_mode_characterization (a m : String) (env : Env)
    (h1 : a ≠ "") (h2 : m ≠ "") :
    (isAllFailedDebug (GET ⟨some a, some m⟩ env).debugInfo = true ↔
      ((runLoop a env).found = none ∨
        ∃ url, (runLoop a env).found = some (.falsyVal, url))) ∧
    ((runLoop a env).found = none ↔
      (¬ (∃ d, env.outcome1 = .parsed d)) ∧ ¬ (∃ d, env.outcome2 = .parsed d)) := by
  constructor
  · constructor
    · intro hall
      rcases hf : (runLoop a env).found with _ | ⟨d, u⟩
      · exact Or.inl rfl
      · cases d with
        | falsyVal => exact Or.inr ⟨u, rfl⟩
        | body b =>
          rw [GET_found_body a m env b u h1 h2 hf,
            handleBody_debug_not_allFailed a m env _ u b] at hall
          exact absurd hall (by simp)
    · intro hor
      rcases hor with hf | ⟨url, hf⟩
      · rw [GET_found_none a m env h1 h2 hf]; rfl
      · rw [GET_found_falsy a m env url h1 h2 hf]; rfl
  · cases ho1 : env.outcome1 <;> cases ho2 : env.outcome2 <;>
      simp [runLoop, tryEndpoints, apiEndpoints, ho1, ho2]

/-- Witness for the amended C2: with both endpoints failing, the manual-mode
report is produced, and the loop indeed found nothing. -/
theorem manual_mode_characterization_witness :
    wAddr ≠ "" ∧
    (isAllFailedDebug (GET ⟨some wAddr, some "1.5"⟩ wEnvA).debugInfo = true ↔
      ((runLoop wAddr wEnvA).found = none ∨
        ∃ url, (runLoop wAddr wEnvA).found = some (.falsyVal, url))) ∧
    ((runLoop wAddr wEnvA).found = none ↔
      (¬ (∃ d, wEnvA.outcome1 = .parsed d)) ∧ ¬ (∃ d, wEnvA.outcome2 = .parsed d)) :=
  ⟨by decide,
    (manual_mode_characterization wAddr "1.5" wEnvA (by decide) (by decide)).1,
    (manual_mode_characterization wAddr "1.5" wEnvA (by decide) (by decide)).2⟩

/-- C8: when the upstream body has status `"1"` and an array result, the
transfer-derived balance (before any refinement) is the sum of
`value / 10^tokenDecimal` over exactly the transactions whose `to` matches
the requested address case-insensitively. -/
theorem transfer_balance_is_incoming_sum (now : Int) (addr : String) (exp : Option ℚ)
    (b : UpstreamBody) (txs : List RawTx)
    (hstat : b.status = some "1") (hres : b.result = .arrv txs) :
    (processBody now addr exp b).balance =
      ((txs.filter (fun tx => strToLower tx.toAddr == strToLower addr)).map txAmount).sum := by
  rw [processBody_arr now addr exp b txs hstat hres]
  show ((txs.map (processTx now addr exp)).filter (fun tx => tx.isToAddress)).foldl
      (fun sum tx => sum + tx.value) 0 = _
  rw [balance_fold, zero_add]

/-- Witness for C8 at the sample body. -/
theorem transfer_balance_is_incoming_sum_witness :
    wBody1.status = some "1" ∧
    (processBody wEnv1.now wAddr (jsParseFloat "1.5") wBody1).balance =
      (([wTx1].filter (fun tx => strToLower tx.toAddr == strToLower wAddr)).map txAmount).sum :=
  ⟨rfl, transfer_balance_is_incoming_sum wEnv1.now wAddr (jsParseFloat "1.5") wBody1 [wTx1]
    rfl rfl⟩

/-- Counterexample to C3 as stated: the endpoint succeeded (with a truthy
string `result`) and the secondary balance call succeeded with status `"1"`
and raw balance `"2500000000000000000"`, yet the final balance is 0, not 2.5,
because shaping the report throws a `TypeError` that discards the refined
balance. -/
theorem balance_refinement_counterexample :
    cexEnv3.balanceFetch (balanceUrl (wUrl wAddr)) =
      .ok ⟨some "1", some "2500000000000000000"⟩ ∧
    (GET ⟨some wAddr, some "1.5"⟩ cexEnv3).balance = some (some 0) ∧
    (GET ⟨some wAddr, some "1.5"⟩ cexEnv3).balance ≠
      some (some ((2500000000000000000 : ℚ) / 10 ^ 18)) := by
  refine ⟨rfl, rfl, ?_⟩
  intro hc
  rw [show (GET ⟨some wAddr, some "1.5"⟩ cexEnv3).balance = some (some (0 : ℚ)) from rfl] at hc
  simp only [Option.some.injEq] at hc
  norm_num at hc

/-- C3 (amended): when an endpoint succeeded and the upstream `result` is an
array or falsy (so that report shaping does not throw): a successful balance
call with body status `"1"` makes the final balance the raw integer balance
divided by `10^18`, while any failing balance call (transport error, timeout,
non-ok status, or status other than `"1"`) leaves the transfer-derived
balance in the HTTP 200 report. -/
theorem balance_refinement_behavior :
    (∀ (a m : String) (env : Env) (b : UpstreamBody) (url : String)
      (bb : BalanceBody) (n : Int), a ≠ "" → m ≠ "" →
      (runLoop a env).found = some (.body b, url) → resultShapable b.result = true →
      env.balanceFetch (balanceUrl url) = .ok bb → bb.status = some "1" →
      jsParseInt (jsOrStr bb.result "0") = some n →
      (GET ⟨some a, some m⟩ env).balance = some (some ((n : ℚ) / 10 ^ 18))) ∧
    (∀ (a m : String) (env : Env) (b : UpstreamBody) (url : String), a ≠ "" → m ≠ "" →
      (runLoop a env).found = some (.body b, url) → resultShapable b.result = true →
      balanceFailed (env.balanceFetch (balanceUrl url)) = true →
      (GET ⟨some a, some m⟩ env).balance =
        some (some ((processBody env.now a (jsParseFloat m) b).balance)) ∧
      (GET ⟨some a, some m⟩ env).httpStatus = 200) := by
  constructor
  · intro a m env b url bb n h1 h2 hloop hshape hbf hbs hbr
    rw [GET_found_body a m env b url h1 h2 hloop]
    have key : ∀ r : Response,
        r.balance = some (refineBalance ((processBody env.now a (jsParseFloat m) b).balance)
          (env.balanceFetch (balanceUrl url))) →
        r.balance = some (some ((n : ℚ) / 10 ^ 18)) := by
      intro r hr
      rw [hr, hbf]
      simp [refineBalance, hbs, hbr]
    rcases hres : b.result with _ | _ | s | txs
    · exact key _ (by rw [handleBody_empty a m env _ url b (Or.inl hres)]; rfl)
    · exact key _ (by rw [handleBody_empty a m env _ url b (Or.inr (Or.inl hres))]; rfl)
    · have hs : s = "" := by
        rw [hres] at hshape
        simpa [resultShapable] using hshape
      exact key _ (by rw [handleBody_empty a m env _ url b (Or.inr (Or.inr (hs ▸ hres)))]; rfl)
    · exact key _ (by rw [handleBody_arr a m env _ url b txs hres]; rfl)
  · intro a m env b url h1 h2 hloop hshape hfail
    rw [GET_found_body a m env b url h1 h2 hloop]
    rcases hres : b.result with _ | _ | s | txs
    · rw [handleBody_empty a m env _ url b (Or.inl hres)]
      exact ⟨by show some (refineBalance _ _) = _; rw [refineBalance_failed _ _ hfail], rfl⟩
    · rw [handleBody_empty a m env _ url b (Or.inr (Or.inl hres))]
      exact ⟨by show some (refineBalance _ _) = _; rw [refineBalance_failed _ _ hfail], rfl⟩
    · have hs : s = "" := by
        rw [hres] at hshape
        simpa [resultShapable] using hshape
      rw [handleBody_empty a m env _ url b (Or.inr (Or.inr (hs ▸ hres)))]
      exact ⟨by show some (refineBalance _ _) = _; rw [refineBalance_failed _ _ hfail], rfl⟩
    · rw [handleBody_arr a m env _ url b txs hres]
      exact ⟨by show some (refineBalance _ _) = _; rw [refineBalance_failed _ _ hfail], rfl⟩

/-- Witness for the amended C3: a successful balance call yields 2.5 both on
an array result and on a falsy (`null`) result; a 404 balance response leaves
the transfer-derived balance. -/
theorem balance_refinement_behavior_witness :
    wEnv3.balanceFetch (balanceUrl (wUrl wAddr)) =
      .ok ⟨some "1", some "2500000000000000000"⟩ ∧
    (GET ⟨some wAddr, some "1.5"⟩ wEnv3).balance =
      some (some ((2500000000000000000 : ℚ) / 10 ^ 18)) ∧
    wBody3b.result = .nullv ∧
    (GET ⟨some wAddr, some "1.5"⟩ wEnv3b).balance =
      some (some ((2500000000000000000 : ℚ) / 10 ^ 18)) ∧
    (GET ⟨some wAddr, some "1.5"⟩ wEnv1).balance =
      some (some ((processBody wEnv1.now wAddr (jsParseFloat "1.5") wBody1).balance)) :=
  ⟨rfl,
    balance_refinement_behavior.1 wAddr "1.5" wEnv3 wBody1 (wUrl wAddr)
      ⟨some "1", some "2500000000000000000"⟩ 2500000000000000000
      (by decide) (by decide) rfl rfl rfl rfl (by decide),
    rfl,
    balance_refinement_behavior.1 wAddr "1.5" wEnv3b wBody3b (wUrl wAddr)
      ⟨some "1", some "2500000000000000000"⟩ 2500000000000000000
      (by decide) (by decide) rfl rfl rfl rfl (by decide),
    (balance_refinement_behavior.2 wAddr "1.5" wEnv1 wBody1 (wUrl wAddr)
      (by decide) (by decide) rfl rfl rfl).1⟩

/-- Counterexample to C4 as stated: the URL of the secondary balance call
does not contain the API-key parameter at all (truncating at `&page=` drops
`offset`, `sort` and `apikey`), while the transfer-history URL does. -/
theorem balance_call_unkeyed_counterexample :
    strHasSub (balanceUrl ((apiEndpoints fallbackApiKey wAddr).headD ""))
      ("apikey=" ++ fallbackApiKey) = false ∧
    strHasSub ((apiEndpoints fallbackApiKey wAddr).headD "")
      ("apikey=" ++ fallbackApiKey) = true := by
  exact ⟨by decide, by decide⟩

/-- C4 (amended): whenever the transfer-history fetch succeeded on some
endpoint (and shaping does not throw), the secondary balance call is issued
to the URL obtained from that endpoint by substituting `tokenbalance` for
`tokentx` and truncating at `&page=` — the same host, contract and address,
but with the `page`, `offset`, `sort` and `apikey` parameters dropped, so it
is not keyed by the API key. -/
theorem balance_call_url_structure :
    (∀ (a m : String) (env : Env) (b : UpstreamBody) (url : String), a ≠ "" → m ≠ "" →
      (runLoop a env).found = some (.body b, url) → resultShapable b.result = true →
      (GET ⟨some a, some m⟩ env).balance =
        some (refineBalance ((processBody env.now a (jsParseFloat m) b).balance)
          (env.balanceFetch (balanceUrl url)))) ∧
    balanceUrl ((apiEndpoints fallbackApiKey wAddr).headD "") =
      "https://api.bscscan.com/api?module=account&action=tokenbalance&contractaddress=0x55d398326f99059fF775485246999027B3197955&address=0xAbCd&tag=latest" ∧
    strHasSub (balanceUrl ((apiEndpoints fallbackApiKey wAddr).headD "")) "apikey" = false := by
  refine ⟨?_, by decide, by decide⟩
  intro a m env b url h1 h2 hloop hshape
  rw [GET_found_body a m env b url h1 h2 hloop]
  rcases hres : b.result with _ | _ | s | txs
  · rw [handleBody_empty a m env _ url b (Or.inl hres)]; rfl
  · rw [handleBody_empty a m env _ url b (Or.inr (Or.inl hres))]; rfl
  · have hs : s = "" := by
      rw [hres] at hshape
      simpa [resultShapable] using hshape
    rw [handleBody_empty a m env _ url b (Or.inr (Or.inr (hs ▸ hres)))]; rfl
  · rw [handleBody_arr a m env _ url b txs hres]; rfl

/-- Witness for the amended C4 at the sample world. -/
theorem balance_call_url_structure_witness :
    resultShapable wBody1.result = true ∧
    (GET ⟨some wAddr, some "1.5"⟩ wEnv1).balance =
      some (refineBalance ((processBody wEnv1.now wAddr (jsParseFloat "1.5") wBody1).balance)
        (wEnv1.balanceFetch (balanceUrl (wUrl wAddr)))) :=
  ⟨rfl, balance_call_url_structure.1 wAddr "1.5" wEnv1 wBody1 (wUrl wAddr)
    (by decide) (by decide) rfl rfl⟩

/-- Counterexample to C5 as stated: a successfully parsed body with status
`"2"`, message `"hello"` and truthy string result `"x"` is reported with the
generic catch-path `apiStatus`, not the raw upstream values. -/
theorem apiStatus_counterexample :
    cexEnv5.outcome1 = .parsed (.body cexBody5) ∧
    (GET ⟨some wAddr, some "1.5"⟩ cexEnv5).apiStatus =
      some ⟨"0", "Request failed", .strv sliceMapTypeError⟩ ∧
    (GET ⟨some wAddr, some "1.5"⟩ cexEnv5).apiStatus ≠ some (apiStatusOf cexBody5) :=
  ⟨rfl, rfl, by decide⟩

/-- C5 (amended): for every successfully parsed truthy body whose `result`
is an array or falsy, the handler returns HTTP 200 with `apiStatus` carrying
the upstream `status`, `message` and `result` with falsy components replaced
by the defaults `"0"`, `"Unknown error"` and `null`; a truthy non-array
result instead yields the HTTP 200 catch report for the shaping
`TypeError`. -/
theorem apiStatus_reporting :
    (∀ (a m : String) (env : Env) (b : UpstreamBody) (url : String), a ≠ "" → m ≠ "" →
      (runLoop a env).found = some (.body b, url) → resultShapable b.result = true →
      (GET ⟨some a, some m⟩ env).httpStatus = 200 ∧
      (GET ⟨some a, some m⟩ env).apiStatus = some (apiStatusOf b)) ∧
    (∀ (a m : String) (env : Env) (b : UpstreamBody) (url : String) (s : String),
      a ≠ "" → m ≠ "" →
      (runLoop a env).found = some (.body b, url) → b.result = .strv s → s ≠ "" →
      GET ⟨some a, some m⟩ env = catchResponse sliceMapTypeError) := by
  constructor
  · intro a m env b url h1 h2 hloop hshape
    rw [GET_found_body a m env b url h1 h2 hloop]
    rcases hres : b.result with _ | _ | s | txs
    · rw [handleBody_empty a m env _ url b (Or.inl hres)]; exact ⟨rfl, rfl⟩
    · rw [handleBody_empty a m env _ url b (Or.inr (Or.inl hres))]; exact ⟨rfl, rfl⟩
    · have hs : s = "" := by
        rw [hres] at hshape
        simpa [resultShapable] using hshape
      rw [handleBody_empty a m env _ url b (Or.inr (Or.inr (hs ▸ hres)))]; exact ⟨rfl, rfl⟩
    · rw [handleBody_arr a m env _ url b txs hres]; exact ⟨rfl, rfl⟩
  · intro a m env b url s h1 h2 hloop hres hs
    rw [GET_found_body a m env b url h1 h2 hloop,
      handleBody_strv_truthy a m env _ url b s hres hs]

/-- Witness for the amended C5: the sample body's `apiStatus` is carried, and
the rate-limited string body of `cexEnv3` lands in the catch report. -/
theorem apiStatus_reporting_witness :
    resultShapable wBody1.result = true ∧
    (GET ⟨some wAddr, some "1.5"⟩ wEnv1).apiStatus = some (apiStatusOf wBody1) ∧
    GET ⟨some wAddr, some "1.5"⟩ cexEnv3 = catchResponse sliceMapTypeError :=
  ⟨rfl,
    (apiStatus_reporting.1 wAddr "1.5" wEnv1 wBody1 (wUrl wAddr)
      (by decide) (by decide) rfl rfl).2,
    apiStatus_reporting.2 wAddr "1.5" cexEnv3 cexBody3 (wUrl wAddr) "Max rate limit reached"
      (by decide) (by decide) rfl rfl (by decide)⟩

/-- Counterexample to C7 as stated: the reshaped transactions do not carry
`blockNumber` — two worlds whose only difference is the transaction's
`blockNumber` produce identical `transactions` lists in the response. -/
theorem transactions_blockNumber_counterexample :
    wTx7a.blockNumber ≠ wTx7b.blockNumber ∧
    (GET ⟨some wAddr, some "1.5"⟩ cexEnv7a).transactions = some [reshapeTx wTx7a] ∧
    (GET ⟨some wAddr, some "1.5"⟩ cexEnv7a).transactions =
      (GET ⟨some wAddr, some "1.5"⟩ cexEnv7b).transactions :=
  ⟨by decide, rfl, rfl⟩

/-- C7 (amended): the response's transaction list is exactly the first ten
upstream transactions in upstream order, each reshaped to `hash`, `from`,
`to`, normalized `value`, ISO `timestamp` and `confirmations` — without
`blockNumber` and without the three derived booleans — and never exceeds ten
entries. -/
theorem transactions_truncated_reshaped (a m : String) (env : Env) (b : UpstreamBody)
    (txs : List RawTx) (url : String) (h1 : a ≠ "") (h2 : m ≠ "")
    (hloop : (runLoop a env).found = some (.body b, url)) (hres : b.result = .arrv txs) :
    (GET ⟨some a, some m⟩ env).transactions = some ((txs.take 10).map reshapeTx) ∧
    ((txs.take 10).map reshapeTx).length ≤ 10 := by
  constructor
  · rw [GET_found_body a m env b url h1 h2 hloop, handleBody_arr a m env _ url b txs hres]
    rfl
  · rw [List.length_map, List.length_take]
    exact min_le_left _ _

/-- Witness for the amended C7: eleven upstream transactions are truncated
to ten reshaped entries. -/
theorem transactions_truncated_reshaped_witness :
    wBodyMany.result = .arrv wTxsMany ∧
    (GET ⟨some wAddr, some "1.5"⟩ wEnvMany).transactions =
      some ((wTxsMany.take 10).map reshapeTx) ∧
    ((wTxsMany.take 10).map reshapeTx).length ≤ 10 :=
  ⟨rfl,
    (transactions_truncated_reshaped wAddr "1.5" wEnvMany wBodyMany wTxsMany (wUrl wAddr)
      (by decide) (by decide) rfl rfl).1,
    (transactions_truncated_reshaped wAddr "1.5" wEnvMany wBodyMany wTxsMany (wUrl wAddr)
      (by decide) (by decide) rfl rfl).2⟩

end CheckPayment
